import Mathlib

/-!
Shallow embedding of the qmt-mcp trading assistant (src/main.py) and proofs
of its specified properties.

Modelling conventions:
- Python `int` is `ℤ`, Python `float` is `ℚ` (exact rationals idealise IEEE
  doubles; all claims are threshold comparisons on vendor data).
- `pandas.Series.round(2)` is modelled by `round2`, rounding to two decimal
  places with Mathlib's `round` (half-up instead of float half-to-even; the
  two agree away from exact half-cent ties).
- Vendor SDK calls that may raise are modelled as `Except String`-valued
  fields of a `Trader` structure; a Python `try/except` around such a call
  becomes a `match` sending `.error` to the corresponding failure result.
- Each Python function returning a formatted string is modelled as a function
  into an inductive result type with one constructor per `return` site,
  carrying the data interpolated into the message.
-/

namespace QmtMcp

/-- Rounding to two decimal places, modelling `pandas.Series.round(2)`
(src/main.py:264, 306). -/
def round2 (x : ℚ) : ℚ := (round (x * 100) : ℚ) / 100

/-! ## Configuration (src/main.py:32-46)

`Config` holds the risk-control limits `MIN_ORDER_QUANTITY` (default 100)
and `MAX_ORDER_VALUE` (default 100000), read once from the environment. -/

structure TradeConfig where
  minOrderQuantity : ℤ
  maxOrderValue : ℚ
deriving DecidableEq

/-- Default values of `MIN_ORDER_QUANTITY` and `MAX_ORDER_VALUE`
(src/main.py:42-43). -/
def defaultTradeConfig : TradeConfig := { minOrderQuantity := 100, maxOrderValue := 100000 }

/-! ## Trading client (src/main.py:170-239)

`TradingTools` holds `self.trader`, which is `None` when the vendor SDK
failed to import (simulated mode). The two vendor calls
`trader.order_stock` and `trader.cancel_order_stock` are modelled as
fields of `Trader`; they return an integer or raise. -/

structure Trader where
  orderStock : String → Bool → ℤ → ℚ → Except String ℤ
  cancelOrderStock : ℤ → Except String ℤ

/-- One constructor per `return` site of `TradingTools.place_order`
(src/main.py:190-226): the two validation rejections, the simulated-mode
acknowledgment, live success/failure, and the `except` handler. -/
inductive OrderResult where
  | rejectNotMultiple (minQty : ℤ)
  | rejectOverLimit (maxValue : ℚ)
  | simSuccess (symbol direction : String) (quantity : ℤ) (price : ℚ) (orderId : String)
  | liveSuccess (orderId : ℤ)
  | liveFailed (code : ℤ)
  | orderError (msg : String)
deriving DecidableEq

/-- Message of the `ZeroDivisionError` Python raises from `quantity % 0`,
caught by the handler at src/main.py:224. -/
def zeroModulusMsg : String := "integer division or modulo by zero"

/-- `TradingTools.place_order` (src/main.py:190-226). The extra `nowStamp`
argument is the `datetime.now().strftime` timestamp used for the simulated
order id; the returned `Bool` records whether the vendor SDK order call was
invoked. Validation runs before the simulated-mode check, and neither
validation branch nor the simulated branch touches the SDK. -/
def place_order (cfg : TradeConfig) (trader : Option Trader) (symbol : String)
    (quantity : ℤ) (price : ℚ) (direction : String) (nowStamp : String) :
    OrderResult × Bool :=
  if cfg.minOrderQuantity = 0 then
    (.orderError zeroModulusMsg, false)
  else if quantity % cfg.minOrderQuantity ≠ 0 then
    (.rejectNotMultiple cfg.minOrderQuantity, false)
  else if cfg.maxOrderValue < price * (quantity : ℚ) then
    (.rejectOverLimit cfg.maxOrderValue, false)
  else
    match trader with
    | none => (.simSuccess symbol direction quantity price ("SIM" ++ nowStamp), false)
    | some t =>
      match t.orderStock symbol (direction == "BUY") quantity price with
      | .ok oid => if 0 < oid then (.liveSuccess oid, true) else (.liveFailed oid, true)
      | .error e => (.orderError e, true)

/-- Whether a `place_order` result is a success acknowledgment (simulated or
live), as opposed to a rejection or failure message. -/
def isOrderSuccess : OrderResult → Bool
  | .simSuccess _ _ _ _ _ => true
  | .liveSuccess _ => true
  | _ => false

/-- Digit-string to number, helper for `pyInt`. -/
def digitsToNat (cs : List Char) : Option ℕ :=
  if cs ≠ [] ∧ cs.all Char.isDigit then
    some (cs.foldl (fun a c => 10 * a + (c.toNat - 48)) 0)
  else none

/-- Whitespace stripping on both ends, modelling the strip Python's `int`
applies to its string argument. -/
def pyTrim (cs : List Char) : List Char :=
  ((cs.dropWhile Char.isWhitespace).reverse.dropWhile Char.isWhitespace).reverse

/-- Python `int(s)` on a string: surrounding whitespace stripped, optional
sign, then decimal digits; anything else raises `ValueError` (modelled as
`none`). -/
def pyInt (s : String) : Option ℤ :=
  match pyTrim s.toList with
  | '-' :: rest => (digitsToNat rest).map (fun n => -(n : ℤ))
  | '+' :: rest => (digitsToNat rest).map (fun n => (n : ℤ))
  | t => (digitsToNat t).map (fun n => (n : ℤ))

/-- Message of the `ValueError` Python raises from `int(order_id)` on a
non-numeric string, caught by the handler at src/main.py:236. -/
def invalidIntMsg : String := "invalid literal for int with base 10"

/-- One constructor per `return` site of `TradingTools.cancel_order`
(src/main.py:228-237). -/
inductive CancelResult where
  | simOk (orderId : String)
  | liveOk
  | liveFailed
  | cancelError (msg : String)
deriving DecidableEq

/-- `TradingTools.cancel_order` (src/main.py:228-237): simulated-mode
acknowledgment when the trader is absent; otherwise `int(order_id)` is
parsed (a `ValueError` lands in the `except` handler) and the vendor cancel
call is issued, `0` meaning success; a vendor exception also lands in the
handler. -/
def cancel_order (trader : Option Trader) (orderId : String) : CancelResult :=
  match trader with
  | none => .simOk orderId
  | some t =>
    match pyInt orderId with
    | none => .cancelError invalidIntMsg
    | some n =>
      match t.cancelOrderStock n with
      | .ok r => if r = 0 then .liveOk else .liveFailed
      | .error e => .cancelError e

/-! ## XTQuant client (src/main.py:50-166)

Only the state relevant to the claims is modelled: the `_connected` flag
and the `_xt` SDK handle (absent before `connect` ever ran). The handle's
`disconnect` call may raise; its outcome is the `disconnectResult` field. -/

structure XtHandle where
  disconnectResult : Except String Unit

structure ClientState where
  connected : Bool
  xt : Option XtHandle

/-- State of `XTQuantClient.__init__` (src/main.py:53-56): not connected,
no SDK handle. -/
def initClient : ClientState := { connected := false, xt := none }

/-- `XTQuantClient.disconnect` (src/main.py:155-163): if an SDK handle
exists its `disconnect` is called inside `try/except: pass`, so any failure
is discarded; `_connected` is then set to `False` unconditionally. -/
def disconnect (s : ClientState) : ClientState :=
  match s.xt with
  | some h =>
    match h.disconnectResult with
    | .ok _ => { s with connected := false }
    | .error _ => { s with connected := false }
  | none => { s with connected := false }

/-! ## Analyzer: limit-up screening (src/main.py:246-287)

A 2-day sector snapshot row carries, per symbol, the prior close
(`close_df.iloc[:, -2]`), the latest close (`close_df.iloc[:, -1]`) and the
latest volume. `find_limit_up_stocks` receives the snapshot already fetched
(`get_sector_data` returns `None` on failure, hence the `Option`). -/

structure LRow where
  symbol : String
  preClose : ℚ
  curClose : ℚ
  volume : ℚ
deriving DecidableEq

/-- Percent change from prior close to latest close, rounded to two
decimals (src/main.py:264). -/
def pctChange (r : LRow) : ℚ := round2 ((r.curClose - r.preClose) / r.preClose * 100)

/-- The limit-up selection `pct_change[pct_change >= 9.5]` sorted descending
(src/main.py:267). -/
def limitUpSorted (snap : List LRow) : List LRow :=
  (snap.filter (fun r => decide ((9.5 : ℚ) ≤ pctChange r))).mergeSort
    (fun a b => decide (pctChange b ≤ pctChange a))

/-- One constructor per `return` site of `DataAnalyzer.find_limit_up_stocks`
(src/main.py:246-287): the not-connected guard, the fetch-failure message,
the empty-selection message, and the report carrying the total count, the
printed top-20 rows and, when more than 20 qualify, the remainder count. -/
inductive LimitUpResult where
  | notConnected
  | fetchFailed
  | noLimitUp
  | report (total : ℕ) (top : List LRow) (extra : Option ℕ)
deriving DecidableEq

/-- `DataAnalyzer.find_limit_up_stocks` (src/main.py:246-287). -/
def find_limit_up_stocks (connected : Bool) (data : Option (List LRow)) : LimitUpResult :=
  if !connected then .notConnected
  else
    match data with
    | none => .fetchFailed
    | some snap =>
      let lu := limitUpSorted snap
      if lu.isEmpty then .noLimitUp
      else .report lu.length (lu.take 20)
        (if 20 < lu.length then some (lu.length - 20) else none)

/-! ## Analyzer: volume-surge screening (src/main.py:289-332)

A volume-window row carries, per symbol, the volumes of all days but the
latest (`volume_df.iloc[:, :-1]`), the latest volume
(`volume_df.iloc[:, -1]`) and the latest close (printed in the report). -/

structure VRow where
  symbol : String
  priorVols : List ℚ
  curVol : ℚ
  close : ℚ
deriving DecidableEq

/-- Mean volume over all days but the latest (src/main.py:303). -/
def avgPrior (r : VRow) : ℚ := r.priorVols.sum / (r.priorVols.length : ℚ)

/-- Latest volume over mean prior volume, rounded to two decimals
(src/main.py:306). -/
def volMultiple (r : VRow) : ℚ := round2 (r.curVol / avgPrior r)

/-- The surge selection `volume_ratio[volume_ratio >= threshold]` sorted
descending (src/main.py:309). -/
def surgeSorted (threshold : ℚ) (snap : List VRow) : List VRow :=
  (snap.filter (fun r => decide (threshold ≤ volMultiple r))).mergeSort
    (fun a b => decide (volMultiple b ≤ volMultiple a))

/-- One constructor per `return` site of `DataAnalyzer.find_volume_surge`
(src/main.py:289-332). -/
inductive SurgeResult where
  | notConnected
  | fetchFailed
  | noSurge
  | report (total : ℕ) (top : List VRow) (extra : Option ℕ)
deriving DecidableEq

/-- `DataAnalyzer.find_volume_surge` (src/main.py:289-332). -/
def find_volume_surge (connected : Bool) (threshold : ℚ) (data : Option (List VRow)) :
    SurgeResult :=
  if !connected then .notConnected
  else
    match data with
    | none => .fetchFailed
    | some snap =>
      let su := surgeSorted threshold snap
      if su.isEmpty then .noSurge
      else .report su.length (su.take 20)
        (if 20 < su.length then some (su.length - 20) else none)

/-! ## Analyzer: single-stock report (src/main.py:334-379)

A market series row is one trading day of the OHLCV dataframe returned by
`get_market_data` (`open` is spelled `openPrice`, `open` being a Lean
keyword). `get_market_data` returning `None` and the dataframe being empty
produce the same no-data message, so both are modelled by the empty list. -/

structure SRow where
  openPrice : ℚ
  high : ℚ
  low : ℚ
  close : ℚ
  volume : ℚ
deriving DecidableEq

/-- Arithmetic mean of a list, modelling `pandas.Series.mean`. -/
def meanQ (l : List ℚ) : ℚ := l.sum / (l.length : ℚ)

/-- Percent change between the two most recent rows (src/main.py:350, 399). -/
def pctChangeOf (latest prev : SRow) : ℚ := (latest.close - prev.close) / prev.close * 100

/-- Fold computing the maximum of `x` and a list, modelling
`pandas.Series.max` on a nonempty series headed by `x`. -/
def listMax (x : ℚ) (l : List ℚ) : ℚ := l.foldl max x

/-- Fold computing the minimum of `x` and a list, modelling
`pandas.Series.min` on a nonempty series headed by `x`. -/
def listMin (x : ℚ) (l : List ℚ) : ℚ := l.foldl min x

/-- The figures interpolated into the `get_stock_info` report
(src/main.py:345-374). -/
structure StockInfo where
  close : ℚ
  pctCh : ℚ
  low : ℚ
  high : ℚ
  volume : ℚ
  volMult : ℚ
  ma5 : ℚ
  ma20 : ℚ
  maxHigh : ℚ
  minLow : ℚ
  avgVolume : ℚ
deriving DecidableEq

/-- The computation body of `DataAnalyzer.get_stock_info`
(src/main.py:345-374), given the series `rows` with
`rows.reverse = latest :: rest` (so `latest` is `df.iloc[-1]` and `rest`
the earlier rows, most recent first). `prev` is `df.iloc[-2]` when it
exists, else `latest`; `ma5`/`ma20` are the rolling means of the last 5/20
closes when the series is long enough, else the latest close. -/
def stockInfoRecord (rows : List SRow) (latest : SRow) (rest : List SRow) : StockInfo :=
  let prev := rest.headD latest
  let avgVol := meanQ (rows.map (·.volume))
  { close := latest.close
    pctCh := pctChangeOf latest prev
    low := latest.low
    high := latest.high
    volume := latest.volume
    volMult := latest.volume / avgVol
    ma5 := if 5 ≤ rows.length then meanQ (((latest :: rest).take 5).map (·.close))
           else latest.close
    ma20 := if 20 ≤ rows.length then meanQ (((latest :: rest).take 20).map (·.close))
            else latest.close
    maxHigh := listMax latest.high (rest.map (·.high))
    minLow := listMin latest.low (rest.map (·.low))
    avgVolume := avgVol }

/-- One constructor per `return` site of `DataAnalyzer.get_stock_info`
(src/main.py:334-379). -/
inductive StockInfoResult where
  | notConnected
  | noData
  | info (s : StockInfo)
deriving DecidableEq

/-- `DataAnalyzer.get_stock_info` (src/main.py:334-379). -/
def get_stock_info (connected : Bool) (rows : List SRow) : StockInfoResult :=
  if !connected then .notConnected
  else
    match rows.reverse with
    | [] => .noData
    | latest :: rest => .info (stockInfoRecord rows latest rest)

/-! ## Analyzer: dragon-tiger heuristic (src/main.py:381-428) -/

/-- Warning appended when `abs(pct_change) >= 7` (src/main.py:411-412). -/
def warnPctMsg : String := "⚠️ 涨跌幅较大，可能上榜"

/-- Warning appended when `volume_ratio >= 2` (src/main.py:413-414). -/
def warnVolMsg : String := "⚠️ 成交量显著放大，可能上榜"

/-- Line appended when neither heuristic fires (src/main.py:416-417). -/
def noNotableMsg : String := "ℹ️ 暂无明显上榜特征"

/-- Disclaimer appended unconditionally (src/main.py:419-422). -/
def disclaimerMsg : String := "注意：完整龙虎榜数据需要接入专门的数据源，当前仅提供基础技术分析参考"

/-- The conditional message lines of the dragon-tiger report, in the order
the source appends them (src/main.py:410-422). -/
def dtLines (pct mult : ℚ) : List String :=
  (if (7 : ℚ) ≤ |pct| then [warnPctMsg] else []) ++
  (if (2 : ℚ) ≤ mult then [warnVolMsg] else []) ++
  (if |pct| < 7 ∧ mult < 2 then [noNotableMsg] else []) ++
  [disclaimerMsg]

/-- One constructor per `return` site of
`DataAnalyzer.get_dragon_tiger_info` (src/main.py:381-428); the report
carries the computed percent change, volume ratio and message lines. -/
inductive DragonTigerResult where
  | notConnected
  | noData
  | report (pct mult : ℚ) (lines : List String)
deriving DecidableEq

/-- Latest volume over the mean volume of the whole window
(src/main.py:400-401). -/
def volOverAvg (rows : List SRow) (latest : SRow) : ℚ :=
  latest.volume / meanQ (rows.map (·.volume))

/-- `DataAnalyzer.get_dragon_tiger_info` (src/main.py:381-428). -/
def get_dragon_tiger_info (connected : Bool) (rows : List SRow) : DragonTigerResult :=
  if !connected then .notConnected
  else
    match rows.reverse with
    | [] => .noData
    | latest :: rest =>
      let prev := rest.headD latest
      let pct := pctChangeOf latest prev
      let mult := volOverAvg rows latest
      .report pct mult (dtLines pct mult)

/-! ## Tool layer (src/main.py:436-499)

The remote tools are direct pass-throughs. `place_order` and
`cancel_order` at the tool layer do NOT consult `xt_client`: the embedding
takes the client state as an argument and, faithfully to the source,
ignores it. -/

/-- Remote tool `place_order` (src/main.py:436-448): logs and delegates to
`TradingTools.place_order` without any connection check. -/
def mcp_place_order (client : ClientState) (cfg : TradeConfig) (trader : Option Trader)
    (symbol : String) (quantity : ℤ) (price : ℚ) (direction : String) (nowStamp : String) :
    OrderResult × Bool :=
  let _ := client
  place_order cfg trader symbol quantity price direction nowStamp

/-- Remote tool `cancel_order` (src/main.py:450-459): logs and delegates to
`TradingTools.cancel_order` without any connection check. -/
def mcp_cancel_order (client : ClientState) (trader : Option Trader) (orderId : String) :
    CancelResult :=
  let _ := client
  cancel_order trader orderId

/-! ## Theorems -/

/-- Trader stub used to instantiate live-mode statements at concrete
inputs: every vendor call returns successfully. -/
def stubTrader : Trader :=
  { orderStock := fun _ _ _ _ => .ok 1, cancelOrderStock := fun _ => .ok 0 }

/-- Sample 2-day sector snapshot: symbol AAA rose 10 percent, symbol BBB
was flat. -/
def sampleLRows : List LRow := [⟨"AAA", 10, 11, 1000⟩, ⟨"BBB", 10, 10, 500⟩]

/-- Sample volume window: symbol AAA tripled its prior average volume,
symbol BBB matched it. -/
def sampleVRows : List VRow := [⟨"AAA", [100, 100], 300, 10⟩, ⟨"BBB", [100, 100], 100, 5⟩]

/-- Sample two-day market series used to instantiate single-stock
statements. -/
def sampleSRows : List SRow := [⟨1, 2, 1, 10, 100⟩, ⟨1, 2, 1, 11, 200⟩]

/-- Latest row of `sampleSRows`. -/
def sampleLatest : SRow := ⟨1, 2, 1, 11, 200⟩

/-- Earlier rows of `sampleSRows`, most recent first. -/
def sampleRest : List SRow := [⟨1, 2, 1, 10, 100⟩]

/-- C1: for every order request, `place_order` rejects with a descriptive
message — and without invoking the vendor SDK (second component `false`) —
when the quantity is not a multiple of the configured minimum order
quantity, or when price times quantity exceeds the configured maximum
order value; in both cases no order is submitted. The hypothesis
`cfg.minOrderQuantity ≠ 0` excludes the degenerate configuration where
Python's `%` raises `ZeroDivisionError` (default is 100). -/
theorem place_order_rejects_invalid (cfg : TradeConfig) (trader : Option Trader)
    (symbol : String) (quantity : ℤ) (price : ℚ) (direction nowStamp : String)
    (hm : cfg.minOrderQuantity ≠ 0) :
    (quantity % cfg.minOrderQuantity ≠ 0 →
      place_order cfg trader symbol quantity price direction nowStamp =
        (.rejectNotMultiple cfg.minOrderQuantity, false)) ∧
    (quantity % cfg.minOrderQuantity = 0 →
      cfg.maxOrderValue < price * (quantity : ℚ) →
      place_order cfg trader symbol quantity price direction nowStamp =
        (.rejectOverLimit cfg.maxOrderValue, false)) := by
  constructor
  · intro h
    unfold place_order
    rw [if_neg hm, if_pos h]
  · intro h1 h2
    unfold place_order
    rw [if_neg hm, if_neg (not_not_intro h1), if_pos h2]

/-- Witness for C1 at the default configuration: quantity 150 is rejected
as not a multiple of 100, and a 100-share order at price 2000 is rejected
as exceeding the 100000 limit; neither touches the SDK. -/
theorem place_order_rejects_invalid_witness :
    place_order defaultTradeConfig none "000001.SZ" 150 10 "BUY" "20250101120000" =
      (.rejectNotMultiple 100, false) ∧
    place_order defaultTradeConfig none "000001.SZ" 100 2000 "BUY" "20250101120000" =
      (.rejectOverLimit 100000, false) :=
  ⟨(place_order_rejects_invalid defaultTradeConfig none "000001.SZ" 150 10 "BUY"
      "20250101120000" (by decide)).1 (by decide),
   (place_order_rejects_invalid defaultTradeConfig none "000001.SZ" 100 2000 "BUY"
      "20250101120000" (by decide)).2 (by decide)
      (by norm_num [defaultTradeConfig])⟩

/-- C4 counterexample: in simulated mode (trader absent) `place_order` does
NOT always return a success acknowledgment — validation runs first, so the
order (symbol 000001.SZ, quantity 250, price 10) is rejected as not a
multiple of 100 rather than acknowledged. -/
theorem place_order_sim_not_always_success :
    isOrderSuccess (place_order defaultTradeConfig none "000001.SZ" 250 10 "BUY"
        "20250101120000").1 = false ∧
    (place_order defaultTradeConfig none "000001.SZ" 250 10 "BUY" "20250101120000").1 =
      .rejectNotMultiple 100 := by
  decide

/-- C4 (amended): for every input that passes both validation checks,
`place_order` in simulated mode (trader absent) returns a success message
carrying the timestamp-derived order identifier `SIM` followed by the
current timestamp, without invoking the vendor SDK. -/
theorem place_order_sim_success (cfg : TradeConfig) (symbol : String) (quantity : ℤ)
    (price : ℚ) (direction nowStamp : String) (hm : cfg.minOrderQuantity ≠ 0)
    (h1 : quantity % cfg.minOrderQuantity = 0)
    (h2 : price * (quantity : ℚ) ≤ cfg.maxOrderValue) :
    place_order cfg none symbol quantity price direction nowStamp =
      (.simSuccess symbol direction quantity price ("SIM" ++ nowStamp), false) := by
  unfold place_order
  rw [if_neg hm, if_neg (not_not_intro h1), if_neg (not_lt.mpr h2)]

/-- Witness for the amended C4: a valid 100-share order at price 5 in
simulated mode yields the acknowledgment with identifier
`SIM20250102093000`. -/
theorem place_order_sim_success_witness :
    place_order defaultTradeConfig none "600000.SH" 100 5 "BUY" "20250102093000" =
      (.simSuccess "600000.SH" "BUY" 100 5 ("SIM" ++ "20250102093000"), false) :=
  place_order_sim_success defaultTradeConfig "600000.SH" 100 5 "BUY" "20250102093000"
    (by decide) (by decide) (by norm_num [defaultTradeConfig])

/-- C9: a zero-quantity order passes both validation checks (0 is a
multiple of 100 and 0 times any price does not exceed 100000), so under the
default configuration in simulated mode it is accepted with a success
acknowledgment. -/
theorem place_order_zero_quantity (symbol : String) (price : ℚ)
    (direction nowStamp : String) :
    place_order defaultTradeConfig none symbol 0 price direction nowStamp =
      (.simSuccess symbol direction 0 price ("SIM" ++ nowStamp), false) := by
  unfold place_order
  rw [if_neg (by decide), if_neg (by decide),
    if_neg (by norm_num [defaultTradeConfig])]

/-- C10: `cancel_order` is total over its string input — in simulated mode
any order id yields a success acknowledgment, and in live mode a
non-numeric order id makes the integer conversion fail inside the handler,
yielding a failure-tagged message rather than an exception (the function
is total by construction; every vendor exception is mapped to
`cancelError`). -/
theorem cancel_order_case_analysis (orderId : String) :
    cancel_order none orderId = .simOk orderId ∧
    (∀ t : Trader, pyInt orderId = none →
      cancel_order (some t) orderId = .cancelError invalidIntMsg) := by
  constructor
  · rfl
  · intro t h
    unfold cancel_order
    rw [h]

/-- Witness for C10 at the non-numeric order id `abc`: simulated mode
acknowledges it, live mode reports the conversion failure. -/
theorem cancel_order_case_analysis_witness :
    cancel_order none "abc" = .simOk "abc" ∧
    cancel_order (some stubTrader) "abc" = .cancelError invalidIntMsg :=
  ⟨(cancel_order_case_analysis "abc").1,
   (cancel_order_case_analysis "abc").2 stubTrader (by decide)⟩

/-- C8: `disconnect` never raises and always leaves the client
disconnected — for every client state (including one whose vendor handle
fails to disconnect, whose failure is swallowed, and the initial state
where no connection was ever established), the flag is cleared afterwards
and a repeated call changes nothing. -/
theorem disconnect_safe (s : ClientState) :
    (disconnect s).connected = false ∧
    disconnect (disconnect s) = disconnect s ∧
    (disconnect initClient).connected = false := by
  have h : ∀ t : ClientState, disconnect t = { t with connected := false } := by
    intro t
    obtain ⟨c, xt⟩ := t
    cases xt with
    | none => rfl
    | some hh =>
      obtain ⟨r⟩ := hh
      cases r <;> rfl
  refine ⟨by rw [h], ?_, rfl⟩
  simp only [h]

/-- Descending `mergeSort` by a rational key yields a list that is
pairwise nonincreasing in that key. -/
theorem sorted_mergeSort_desc {α : Type} (f : α → ℚ) (l : List α) :
    (l.mergeSort (fun a b => decide (f b ≤ f a))).Pairwise (fun a b => f b ≤ f a) := by
  have h := @List.sorted_mergeSort α (fun a b => decide (f b ≤ f a))
    (fun a b c hab hbc => by
      simp only [decide_eq_true_eq] at hab hbc ⊢
      exact hbc.trans hab)
    (fun a b => by
      simp only [Bool.or_eq_true, decide_eq_true_eq]
      exact le_total (f b) (f a))
    l
  exact h.imp (fun hab => by simpa using hab)

/-- Membership in a sorted filtered list is membership in the original
list together with the filter predicate. -/
theorem mem_mergeSort_filter {α : Type} (p : α → Bool) (le : α → α → Bool)
    (l : List α) (x : α) :
    x ∈ (l.filter p).mergeSort le ↔ x ∈ l ∧ p x = true := by
  rw [List.Perm.mem_iff (List.mergeSort_perm _ _), List.mem_filter]

/-- C2: over a 2-day sector snapshot whose prior closes are positive, the
limit-up selection contains exactly the rows whose computed percent change
is at least 9.5, is sorted descending by that change, the printed list is
capped at 20, and when the selection is nonempty the report carries the
qualifying count, the top-20 rows and — exactly when more than 20
qualify — the remainder count. -/
theorem find_limit_up_stocks_spec (snap : List LRow)
    (_hpre : ∀ r ∈ snap, 0 < r.preClose) :
    (∀ r : LRow, r ∈ limitUpSorted snap ↔ (r ∈ snap ∧ 9.5 ≤ pctChange r)) ∧
    (limitUpSorted snap).Pairwise (fun a b => pctChange b ≤ pctChange a) ∧
    ((limitUpSorted snap).take 20).length ≤ 20 ∧
    (limitUpSorted snap ≠ [] →
      find_limit_up_stocks true (some snap) =
        .report (snap.countP (fun r => decide ((9.5 : ℚ) ≤ pctChange r)))
          ((limitUpSorted snap).take 20)
          (if 20 < snap.countP (fun r => decide ((9.5 : ℚ) ≤ pctChange r)) then
            some (snap.countP (fun r => decide ((9.5 : ℚ) ≤ pctChange r)) - 20)
          else none)) := by
  refine ⟨?_, ?_, ?_, ?_⟩
  · intro r
    unfold limitUpSorted
    rw [mem_mergeSort_filter]
    simp
  · unfold limitUpSorted
    exact sorted_mergeSort_desc pctChange _
  · exact List.length_take_le _ _
  · intro hne
    have hcount : snap.countP (fun r => decide ((9.5 : ℚ) ≤ pctChange r)) =
        (limitUpSorted snap).length := by
      rw [List.countP_eq_length_filter]
      exact ((List.mergeSort_perm _ _).length_eq).symm
    obtain ⟨x, xs, hx⟩ : ∃ x xs, limitUpSorted snap = x :: xs := by
      cases hlu : limitUpSorted snap with
      | nil => exact absurd hlu hne
      | cons x xs => exact ⟨x, xs, rfl⟩
    rw [hcount]
    simp [find_limit_up_stocks, hx]

/-- Witness for C2 at the sample snapshot: the cap holds and the AAA row
(+10 percent) is selected. -/
theorem find_limit_up_stocks_spec_witness :
    ((limitUpSorted sampleLRows).take 20).length ≤ 20 ∧
    (⟨"AAA", 10, 11, 1000⟩ : LRow) ∈ limitUpSorted sampleLRows :=
  ⟨(find_limit_up_stocks_spec sampleLRows (by decide)).2.2.1,
   ((find_limit_up_stocks_spec sampleLRows (by decide)).1 ⟨"AAA", 10, 11, 1000⟩).mpr
     ⟨by decide, by norm_num [pctChange, round2, round_eq]⟩⟩

/-- C3: over a volume window whose per-symbol prior-average volumes are
positive, the surge selection contains exactly the rows whose computed
ratio (latest volume over mean prior volume) is at least the threshold, is
sorted descending by ratio, the printed list is capped at 20, and when the
selection is nonempty the report carries the qualifying count, the top-20
rows and — exactly when more than 20 qualify — the remainder count. -/
theorem find_volume_surge_spec (threshold : ℚ) (snap : List VRow)
    (_havg : ∀ r ∈ snap, 0 < avgPrior r) :
    (∀ r : VRow, r ∈ surgeSorted threshold snap ↔
      (r ∈ snap ∧ threshold ≤ volMultiple r)) ∧
    (surgeSorted threshold snap).Pairwise (fun a b => volMultiple b ≤ volMultiple a) ∧
    ((surgeSorted threshold snap).take 20).length ≤ 20 ∧
    (surgeSorted threshold snap ≠ [] →
      find_volume_surge true threshold (some snap) =
        .report (snap.countP (fun r => decide (threshold ≤ volMultiple r)))
          ((surgeSorted threshold snap).take 20)
          (if 20 < snap.countP (fun r => decide (threshold ≤ volMultiple r)) then
            some (snap.countP (fun r => decide (threshold ≤ volMultiple r)) - 20)
          else none)) := by
  refine ⟨?_, ?_, ?_, ?_⟩
  · intro r
    unfold surgeSorted
    rw [mem_mergeSort_filter]
    simp
  · unfold surgeSorted
    exact sorted_mergeSort_desc volMultiple _
  · exact List.length_take_le _ _
  · intro hne
    have hcount : snap.countP (fun r => decide (threshold ≤ volMultiple r)) =
        (surgeSorted threshold snap).length := by
      rw [List.countP_eq_length_filter]
      exact ((List.mergeSort_perm _ _).length_eq).symm
    obtain ⟨x, xs, hx⟩ : ∃ x xs, surgeSorted threshold snap = x :: xs := by
      cases hlu : surgeSorted threshold snap with
      | nil => exact absurd hlu hne
      | cons x xs => exact ⟨x, xs, rfl⟩
    rw [hcount]
    simp [find_volume_surge, hx]

/-- Witness for C3 at threshold 2 on the sample window: the cap holds and
the AAA row (ratio 3) is selected. -/
theorem find_volume_surge_spec_witness :
    ((surgeSorted 2 sampleVRows).take 20).length ≤ 20 ∧
    (⟨"AAA", [100, 100], 300, 10⟩ : VRow) ∈ surgeSorted 2 sampleVRows :=
  ⟨(find_volume_surge_spec 2 sampleVRows
      (by norm_num [sampleVRows, avgPrior, List.forall_mem_cons])).2.2.1,
   ((find_volume_surge_spec 2 sampleVRows
      (by norm_num [sampleVRows, avgPrior, List.forall_mem_cons])).1
        ⟨"AAA", [100, 100], 300, 10⟩).mpr
     ⟨by decide, by norm_num [volMultiple, avgPrior, round2, round_eq]⟩⟩

/-- C5 (amended): when the vendor connection is absent, each of the four
data operations returns the explicit not-connected result rather than
raising or proceeding; the trading operations are treated separately
because the source never consults the connection there (see the
counterexample). -/
theorem data_calls_report_not_connected (threshold : ℚ) (luData : Option (List LRow))
    (vsData : Option (List VRow)) (rows1 rows2 : List SRow) :
    find_limit_up_stocks false luData = .notConnected ∧
    find_volume_surge false threshold vsData = .notConnected ∧
    get_stock_info false rows1 = .notConnected ∧
    get_dragon_tiger_info false rows2 = .notConnected :=
  ⟨rfl, rfl, rfl, rfl⟩

/-- C5 counterexample: with the client in the disconnected initial state,
the trading tools do NOT return a not-connected result — `place_order`
proceeds to a simulated success acknowledgment and `cancel_order`
acknowledges the cancel, because neither consults the connection. -/
theorem trading_calls_ignore_connection :
    isOrderSuccess (mcp_place_order initClient defaultTradeConfig none "000001.SZ" 100 1
        "BUY" "20250101090000").1 = true ∧
    mcp_cancel_order initClient none "42" = .simOk "42" := by
  constructor
  · unfold mcp_place_order place_order
    rw [if_neg (by decide), if_neg (by decide),
      if_neg (by norm_num [defaultTradeConfig])]
    rfl
  · rfl

/-- C6: for every nonempty market series with fewer than 5 rows,
`get_stock_info` succeeds and reports the latest close as the 5-day moving
average; likewise with fewer than 20 rows for the 20-day average. -/
theorem get_stock_info_ma_fallback (rows : List SRow) (latest : SRow) (rest : List SRow)
    (h : rows.reverse = latest :: rest) :
    get_stock_info true rows = .info (stockInfoRecord rows latest rest) ∧
    (rows.length < 5 → (stockInfoRecord rows latest rest).ma5 = latest.close) ∧
    (rows.length < 20 → (stockInfoRecord rows latest rest).ma20 = latest.close) := by
  refine ⟨?_, ?_, ?_⟩
  · simp [get_stock_info, h]
  · intro h5
    simp only [stockInfoRecord]
    rw [if_neg (by omega)]
  · intro h20
    simp only [stockInfoRecord]
    rw [if_neg (by omega)]

/-- Witness for C6 on the two-row sample series: the report succeeds and
both moving averages fall back to the latest close. -/
theorem get_stock_info_ma_fallback_witness :
    get_stock_info true sampleSRows =
      .info (stockInfoRecord sampleSRows sampleLatest sampleRest) ∧
    (stockInfoRecord sampleSRows sampleLatest sampleRest).ma5 = sampleLatest.close ∧
    (stockInfoRecord sampleSRows sampleLatest sampleRest).ma20 = sampleLatest.close := by
  have h := get_stock_info_ma_fallback sampleSRows sampleLatest sampleRest (by decide)
  exact ⟨h.1, h.2.1 (by decide), h.2.2 (by decide)⟩

/-- Message lines of the dragon-tiger report: a warning appears exactly
when one of the two heuristics fires, the no-notable-feature line appears
exactly when neither fires, and the disclaimer is always present. -/
theorem dtLines_spec (pct mult : ℚ) :
    ((warnPctMsg ∈ dtLines pct mult ∨ warnVolMsg ∈ dtLines pct mult) ↔
      (7 ≤ |pct| ∨ 2 ≤ mult)) ∧
    (noNotableMsg ∈ dtLines pct mult ↔ ¬(7 ≤ |pct| ∨ 2 ≤ mult)) ∧
    disclaimerMsg ∈ dtLines pct mult := by
  rcases le_or_lt 7 |pct| with h1 | h1 <;> rcases le_or_lt 2 mult with h2 | h2
  · simp [dtLines, h1, h2, not_lt.mpr h1, not_lt.mpr h2,
      warnPctMsg, warnVolMsg, noNotableMsg, disclaimerMsg]
  · simp [dtLines, h1, h2, not_lt.mpr h1, not_le.mpr h2,
      warnPctMsg, warnVolMsg, noNotableMsg, disclaimerMsg]
  · simp [dtLines, h1, h2, not_le.mpr h1, not_lt.mpr h2,
      warnPctMsg, warnVolMsg, noNotableMsg, disclaimerMsg]
  · simp [dtLines, h1, h2, not_le.mpr h1, not_le.mpr h2,
      warnPctMsg, warnVolMsg, noNotableMsg, disclaimerMsg]

/-- C7: for every nonempty market series (with positive previous close
and positive mean volume, the domain where the rational model matches the
float computation), `get_dragon_tiger_info` reports the computed percent
change and volume ratio, flags the symbol as possibly notable if and only
if the absolute change is at least 7 or the ratio at least 2, states the
absence of notable features exactly otherwise, and always includes the
disclaimer that the output is not authoritative disclosure data. -/
theorem get_dragon_tiger_info_spec (rows : List SRow) (latest : SRow) (rest : List SRow)
    (h : rows.reverse = latest :: rest)
    (_hprev : 0 < (rest.headD latest).close)
    (_hvol : 0 < meanQ (rows.map (·.volume))) :
    get_dragon_tiger_info true rows =
      .report (pctChangeOf latest (rest.headD latest)) (volOverAvg rows latest)
        (dtLines (pctChangeOf latest (rest.headD latest)) (volOverAvg rows latest)) ∧
    ((warnPctMsg ∈ dtLines (pctChangeOf latest (rest.headD latest)) (volOverAvg rows latest) ∨
      warnVolMsg ∈ dtLines (pctChangeOf latest (rest.headD latest)) (volOverAvg rows latest)) ↔
      (7 ≤ |pctChangeOf latest (rest.headD latest)| ∨ 2 ≤ volOverAvg rows latest)) ∧
    (noNotableMsg ∈ dtLines (pctChangeOf latest (rest.headD latest)) (volOverAvg rows latest) ↔
      ¬(7 ≤ |pctChangeOf latest (rest.headD latest)| ∨ 2 ≤ volOverAvg rows latest)) ∧
    disclaimerMsg ∈ dtLines (pctChangeOf latest (rest.headD latest)) (volOverAvg rows latest) := by
  refine ⟨?_, dtLines_spec _ _⟩
  simp [get_dragon_tiger_info, h]

/-- Witness for C7 on the two-row sample series (+10 percent change,
ratio 4/3): the report form is as stated. -/
theorem get_dragon_tiger_info_spec_witness :
    get_dragon_tiger_info true sampleSRows =
      .report (pctChangeOf sampleLatest (sampleRest.headD sampleLatest))
        (volOverAvg sampleSRows sampleLatest)
        (dtLines (pctChangeOf sampleLatest (sampleRest.headD sampleLatest))
          (volOverAvg sampleSRows sampleLatest)) :=
  (get_dragon_tiger_info_spec sampleSRows sampleLatest sampleRest (by decide) (by decide)
    (by norm_num [meanQ, sampleSRows])).1

end QmtMcp
